import Mathlib

/-!
# Shallow embedding of `src/util/AdvancedAICaptchaSolver.js`

This file models the retry–cache–stats solve pipeline of the
`AdvancedAICaptchaSolver` class: `solve`, `solveWithRetry`, `getCacheKey`,
`getStats`, `clearCache`, `resetStats`, `cleanup`, and the lazy `initialize`.

Modelling conventions:
* The OCR engine (`Tesseract.createWorker`) and the per-service strategy
  functions are external collaborators; an `Env` records their behaviour:
  whether worker creation succeeds, and the outcome of each raced strategy
  invocation (`Except.error ()` models a thrown exception or a timeout
  rejection from `Promise.race`; `Except.ok r` models resolving with `r`,
  where `r : Option String` and `none` models resolving with `null`).
* JS truthiness of a solution value (`if (solution) ...`) is modelled by
  `truthy`: `null` and the empty string are falsy, any other string truthy.
* The `Map` cache is an association list; `cacheSet` mirrors `Map.set`
  (overwrite in place or append).
* A `solve` call may receive `undefined` captcha data, modelled by
  `Option CaptchaData`; `getCacheKey(undefined)` throws a `TypeError`
  inside the `try` block, modelled by `Except.error ()` in `solveBody`.
* Observable effects that the spec talks about (number of strategy
  invocations, backoff delays awaited, whether `initialize()` was reached)
  are returned as a `SolveTrace` alongside the result and the new state.
-/

/-- Configuration options of the solver (constructor lines 181–187). -/
structure SolverOptions where
  enableCaching : Bool
  maxRetries : Nat
  strategy : String
  timeout : Nat
  debug : Bool
deriving Repr, DecidableEq

/-- The four statistics counters (constructor lines 192–197). -/
structure Stats where
  total : Nat
  successful : Nat
  failed : Nat
  cached : Nat
deriving Repr, DecidableEq

/-- Mutable state of an `AdvancedAICaptchaSolver` instance: options, the
OCR worker handle (`worker : Bool` records whether the handle is present,
i.e. non-null), the `initialized` flag, the cache map and the stats. -/
structure SolverState where
  options : SolverOptions
  worker : Bool
  initialized : Bool
  cache : List (String × String)
  stats : Stats
deriving Repr, DecidableEq

/-- `captchaData` argument of `solve` (destructured at line 237). -/
structure CaptchaData where
  captcha_service : String
  captcha_sitekey : String
  captcha_rqtoken : String
deriving Repr, DecidableEq

/-- Behaviour of the external collaborators: whether
`Tesseract.createWorker` succeeds, and the outcome of the `i`-th raced
strategy invocation inside `solveWithRetry` (`Except.error ()` = the
promise rejected — strategy exception or timeout; `Except.ok r` = it
resolved with `r`, `none` standing for `null`). -/
structure Env where
  initOk : Bool
  attempts : Nat → Except Unit (Option String)

/-- Observable events of one `solve` call: how many times the selected
strategy was invoked, which backoff delays (ms) were awaited, and whether
the `await this.initialize()` statement (line 235) was reached. -/
structure SolveTrace where
  strategyCalls : Nat
  delays : List Nat
  initCalled : Bool
deriving Repr, DecidableEq

/-- Result of `solveWithRetry`: the returned value, the number of strategy
invocations made, and the backoff delays awaited. -/
structure RetryResult where
  result : Option String
  calls : Nat
  delays : List Nat
deriving Repr, DecidableEq

/-- Result of `solve`: returned value, post-state, observable trace. -/
structure SolveOutcome where
  result : Option String
  state : SolverState
  trace : SolveTrace

/-- JS truthiness of a nullable solution string: `null` and `""` are
falsy, every other string is truthy. -/
def truthy : Option String → Bool
  | none => false
  | some s => !s.isEmpty

/-- `this.cache.get(key)` / `this.cache.has(key)` on the association-list
model of the `Map`. -/
def cacheLookup : List (String × String) → String → Option String
  | [], _ => none
  | (k, v) :: rest, key => if k = key then some v else cacheLookup rest key

/-- `this.cache.set(key, value)`: overwrite the binding if present,
otherwise append it. -/
def cacheSet : List (String × String) → String → String → List (String × String)
  | [], key, value => [(key, value)]
  | (k, v) :: rest, key, value =>
    if k = key then (key, value) :: rest else (k, v) :: cacheSet rest key value

/-- `getCacheKey` (line 412): `service + ":" + siteKey`. -/
def getCacheKey (c : CaptchaData) : String :=
  c.captcha_service ++ ":" ++ c.captcha_sitekey

/-- The constructor (lines 180–198): no worker, not initialized, empty
cache, all counters zero. -/
def mkSolver (opts : SolverOptions) : SolverState :=
  { options := opts
    worker := false
    initialized := false
    cache := []
    stats := ⟨0, 0, 0, 0⟩ }

/-- `initialize` (lines 204–216): early return when already initialized;
otherwise try to create the worker, swallowing any failure. -/
def initEngine (env : Env) (s : SolverState) : SolverState :=
  if s.initialized then s
  else if env.initOk then { s with worker := true, initialized := true }
  else s

/-- `backoff i = Math.min(1000 * Math.pow(2, i), 10000)` (line 289). -/
def backoff (i : Nat) : Nat :=
  min (1000 * 2 ^ i) 10000

/-- The retry loop of `solveWithRetry` (lines 276–294), starting at index
`i` with `fuel` iterations remaining (`fuel = maxRetries - i`).  A truthy
resolution returns immediately; a falsy resolution just continues; a
rejection records the backoff delay when further attempts remain. -/
def retryGo (maxRetries : Nat) (attempts : Nat → Except Unit (Option String)) :
    Nat → Nat → RetryResult
  | _, 0 => ⟨none, 0, []⟩
  | i, fuel + 1 =>
    match attempts i with
    | Except.ok sol =>
      if truthy sol then ⟨sol, 1, []⟩
      else
        let r := retryGo maxRetries attempts (i + 1) fuel
        ⟨r.result, r.calls + 1, r.delays⟩
    | Except.error _ =>
      let r := retryGo maxRetries attempts (i + 1) fuel
      if i < maxRetries - 1 then ⟨r.result, r.calls + 1, backoff i :: r.delays⟩
      else ⟨r.result, r.calls + 1, r.delays⟩

/-- `solveWithRetry` (lines 274–298). -/
def solveWithRetry (opts : SolverOptions) (attempts : Nat → Except Unit (Option String)) :
    RetryResult :=
  retryGo opts.maxRetries attempts 0 opts.maxRetries

/-- The service dispatch of `solve` (lines 242–248): `hcaptcha` and
`recaptcha` run their strategy through `solveWithRetry`; any other
service leaves `solution = null` with no strategy invocation. -/
def dispatch (env : Env) (opts : SolverOptions) (c : CaptchaData) : RetryResult :=
  if c.captcha_service = "hcaptcha" then solveWithRetry opts env.attempts
  else if c.captcha_service = "recaptcha" then solveWithRetry opts env.attempts
  else ⟨none, 0, []⟩

/-- The body of the `try` block of `solve` (lines 227–260).
`Except.error ()` models an exception escaping the block; with total
captcha data none of the remaining statements can throw, but
`getCacheKey(undefined)` (modelled by `cd = none`) throws a `TypeError`
before the cache check. -/
def solveBody (env : Env) (s : SolverState) (cd : Option CaptchaData) :
    Except Unit (Option String × SolverState × SolveTrace) :=
  match cd with
  | none => Except.error ()
  | some c =>
    let cacheKey := getCacheKey c
    if s.options.enableCaching && (cacheLookup s.cache cacheKey).isSome then
      Except.ok (cacheLookup s.cache cacheKey,
        { s with stats := { s.stats with cached := s.stats.cached + 1 } },
        ⟨0, [], false⟩)
    else
      let s1 := initEngine env s
      let r : RetryResult := dispatch env s1.options c
      let s2 :=
        if truthy r.result && s1.options.enableCaching then
          { s1 with cache := cacheSet s1.cache cacheKey (r.result.getD "") }
        else s1
      let s3 :=
        if truthy r.result then
          { s2 with stats := { s2.stats with successful := s2.stats.successful + 1 } }
        else
          { s2 with stats := { s2.stats with failed := s2.stats.failed + 1 } }
      Except.ok (r.result, s3, ⟨r.calls, r.delays, true⟩)

/-- `solve` (lines 224–266): increment `total`, run the `try` body, and on
an escaping exception increment `failed` and return `null`. -/
def solve (env : Env) (s : SolverState) (cd : Option CaptchaData) : SolveOutcome :=
  let s1 := { s with stats := { s.stats with total := s.stats.total + 1 } }
  match solveBody env s1 cd with
  | Except.ok (r, s2, tr) => ⟨r, s2, tr⟩
  | Except.error _ =>
    ⟨none, { s1 with stats := { s1.stats with failed := s1.stats.failed + 1 } }, ⟨0, [], false⟩⟩

/-- Two-digit zero-padded rendering of `n < 100`. -/
def pad2 (n : Nat) : String :=
  if n < 10 then "0" ++ Nat.repr n else Nat.repr n

/-- `((num / total) * 100).toFixed(2) + "%"`: the percentage rounded to
the nearest hundredth (ties up), rendered with two decimal places and a
percent sign. -/
def pct2 (num total : Nat) : String :=
  let cents := (num * 20000 + total) / (2 * total)
  Nat.repr (cents / 100) ++ "." ++ pad2 (cents % 100) ++ "%"

/-- The record returned by `getStats` (lines 419–425). -/
structure StatsReport where
  total : Nat
  successful : Nat
  failed : Nat
  cached : Nat
  successRate : String
  cacheHitRate : String
deriving Repr, DecidableEq

/-- `getStats` (lines 419–425). -/
def getStats (s : SolverState) : StatsReport :=
  { total := s.stats.total
    successful := s.stats.successful
    failed := s.stats.failed
    cached := s.stats.cached
    successRate := if s.stats.total > 0 then pct2 s.stats.successful s.stats.total else "N/A"
    cacheHitRate := if s.stats.total > 0 then pct2 s.stats.cached s.stats.total else "N/A" }

/-- `clearCache` (lines 430–433). -/
def clearCache (s : SolverState) : SolverState :=
  { s with cache := [] }

/-- `resetStats` (lines 438–446). -/
def resetStats (s : SolverState) : SolverState :=
  { s with stats := ⟨0, 0, 0, 0⟩ }

/-- `cleanup` (lines 462–470): terminate and drop the worker and reset the
`initialized` flag when a worker is present, then clear the cache. -/
def cleanup (s : SolverState) : SolverState :=
  let s1 := if s.worker then { s with worker := false, initialized := false } else s
  clearCache s1

/-! ## Concrete inputs used by witnesses and counterexamples -/

/-- Default-style options with caching on and `maxRetries = n`. -/
def optsN (n : Nat) : SolverOptions :=
  ⟨true, n, "auto", 30000, false⟩

/-- A strategy environment whose every raced attempt rejects
(exception or timeout) and whose worker creation succeeds. -/
def allFail : Nat → Except Unit (Option String) :=
  fun _ => Except.error ()

/-- An environment whose strategy attempts all resolve with `null`. -/
def envNull : Env :=
  ⟨true, fun _ => Except.ok none⟩

/-- A strategy behaviour that always resolves with the empty string:
a non-null result that JS nevertheless treats as falsy. -/
def attemptsEmpty : Nat → Except Unit (Option String) :=
  fun _ => Except.ok (some "")

/-- A state after one successful `hcaptcha` solve for site key `sk1`
returning `sol-A`: the cache holds the entry and the counters read
`total = 1, successful = 1`. -/
def stCached : SolverState :=
  { options := optsN 3
    worker := true
    initialized := true
    cache := [("hcaptcha:sk1", "sol-A")]
    stats := ⟨1, 1, 0, 0⟩ }

/-- A later request for the same `(service, siteKey)` with a different
request token. -/
def cdHit : CaptchaData :=
  ⟨"hcaptcha", "sk1", "rq2"⟩

/-- A state after one successful solve for service `hcaptcha` and site
key `x:y`: the cache binds the key `hcaptcha:x:y`. -/
def stCollide : SolverState :=
  { options := optsN 3
    worker := true
    initialized := true
    cache := [("hcaptcha:x:y", "tok")]
    stats := ⟨1, 1, 0, 0⟩ }

/-- A request whose service `hcaptcha:x` is unknown, yet whose cache key
`hcaptcha:x` + `:` + `y` collides with the entry of `stCollide`. -/
def cdCollide : CaptchaData :=
  ⟨"hcaptcha:x", "y", "rq"⟩

/-- A request whose service is recognized by no strategy. -/
def cdUnknown : CaptchaData :=
  ⟨"unknown", "sk", "rq"⟩

/-- A strategy behaviour whose first raced attempt rejects and whose
later attempts resolve with `tok`. -/
def attemptsSecond : Nat → Except Unit (Option String) :=
  fun i => if i = 0 then Except.error () else Except.ok (some "tok")

/-- A state whose counters read `total = 2, successful = 1, failed = 0,
cached = 1` (one fresh solve followed by one cache hit). -/
def stMixed : SolverState :=
  { options := optsN 3
    worker := true
    initialized := true
    cache := [("hcaptcha:sk1", "sol-A")]
    stats := ⟨2, 1, 0, 1⟩ }

/-- The counter bookkeeping invariant: every attempt is counted in
exactly one of the three outcome counters. -/
def balanced (st : Stats) : Prop :=
  st.total = st.successful + st.failed + st.cached

/-- Whether a `solve` call takes the cache-hit early return (line 229's
condition, which `undefined` captcha data never reaches). -/
def cacheHit (s : SolverState) : Option CaptchaData → Bool
  | none => false
  | some c => s.options.enableCaching && (cacheLookup s.cache (getCacheKey c)).isSome

/-! ## Helper lemmas -/

/-- Bool test: the raced attempt resolved with a truthy value. -/
def isTruthyOk : Except Unit (Option String) → Bool
  | Except.ok sol => truthy sol
  | Except.error _ => false

/-- The resolved value of a raced attempt (`null` for a rejection). -/
def okVal : Except Unit (Option String) → Option String
  | Except.ok sol => sol
  | Except.error _ => none

@[simp] theorem initEngine_options (env : Env) (s : SolverState) :
    (initEngine env s).options = s.options := by
  unfold initEngine
  split
  · rfl
  · split <;> rfl

@[simp] theorem initEngine_stats (env : Env) (s : SolverState) :
    (initEngine env s).stats = s.stats := by
  unfold initEngine
  split
  · rfl
  · split <;> rfl

@[simp] theorem initEngine_cache (env : Env) (s : SolverState) :
    (initEngine env s).cache = s.cache := by
  unfold initEngine
  split
  · rfl
  · split <;> rfl

/-- `solve` on a cache hit, as one equation. -/
theorem solve_hit (env : Env) (s : SolverState) (c : CaptchaData)
    (h : (s.options.enableCaching && (cacheLookup s.cache (getCacheKey c)).isSome) = true) :
    solve env s (some c) =
      ⟨cacheLookup s.cache (getCacheKey c),
       { s with stats :=
          { s.stats with total := s.stats.total + 1, cached := s.stats.cached + 1 } },
       ⟨0, [], false⟩⟩ := by
  simp only [solve, solveBody, h, if_true]

/-- On a cache miss, the result of `solve` is the dispatch result. -/
theorem solve_miss_result (env : Env) (s : SolverState) (c : CaptchaData)
    (h : (s.options.enableCaching && (cacheLookup s.cache (getCacheKey c)).isSome) = false) :
    (solve env s (some c)).result = (dispatch env s.options c).result := by
  simp only [solve, solveBody, h, Bool.false_eq_true, if_false, initEngine_options]

/-- On a cache miss, the trace of `solve` records the dispatch's calls and
delays, and that `initialize()` was reached. -/
theorem solve_miss_trace (env : Env) (s : SolverState) (c : CaptchaData)
    (h : (s.options.enableCaching && (cacheLookup s.cache (getCacheKey c)).isSome) = false) :
    (solve env s (some c)).trace =
      ⟨(dispatch env s.options c).calls, (dispatch env s.options c).delays, true⟩ := by
  simp only [solve, solveBody, h, Bool.false_eq_true, if_false, initEngine_options]

/-- On a cache miss, the counters after `solve`: `total` up by one, and
`successful` or `failed` up by one according to the dispatch result. -/
theorem solve_miss_stats (env : Env) (s : SolverState) (c : CaptchaData)
    (h : (s.options.enableCaching && (cacheLookup s.cache (getCacheKey c)).isSome) = false) :
    (solve env s (some c)).state.stats =
      (if truthy (dispatch env s.options c).result then
        { s.stats with total := s.stats.total + 1, successful := s.stats.successful + 1 }
      else
        { s.stats with total := s.stats.total + 1, failed := s.stats.failed + 1 }) := by
  simp only [solve, solveBody, h, Bool.false_eq_true, if_false, initEngine_options]
  split <;> split <;> simp_all

theorem retryGo_calls_le (m : Nat) (att : Nat → Except Unit (Option String)) :
    ∀ fuel i, (retryGo m att i fuel).calls ≤ fuel := by
  intro fuel
  induction fuel with
  | zero => intro i; simp [retryGo]
  | succ n ih =>
    intro i
    cases hatt : att i with
    | ok sol =>
      simp only [retryGo, hatt]
      by_cases ht : truthy sol = true
      · simp only [ht, if_true]
        omega
      · simp only [ht, Bool.false_eq_true, if_false]
        have := ih (i + 1)
        omega
    | error e =>
      simp only [retryGo, hatt]
      have := ih (i + 1)
      by_cases hc : i < m - 1
      · simp only [hc, if_true]
        omega
      · simp only [hc, if_false]
        omega

theorem retryGo_all_falsy (m : Nat) (att : Nat → Except Unit (Option String)) :
    ∀ fuel i, (∀ k, i ≤ k → k < i + fuel → isTruthyOk (att k) = false) →
      (retryGo m att i fuel).result = none ∧ (retryGo m att i fuel).calls = fuel := by
  intro fuel
  induction fuel with
  | zero => intro i _; simp [retryGo]
  | succ n ih =>
    intro i hall
    have hi : isTruthyOk (att i) = false := hall i (Nat.le_refl i) (by omega)
    have hrec := ih (i + 1) (fun k hk1 hk2 => hall k (by omega) (by omega))
    cases hatt : att i with
    | ok sol =>
      have ht : truthy sol = false := by
        simpa [isTruthyOk, hatt] using hi
      simp only [retryGo, hatt, ht, Bool.false_eq_true, if_false]
      exact ⟨hrec.1, by omega⟩
    | error e =>
      simp only [retryGo, hatt]
      by_cases hc : i < m - 1
      · simp only [hc, if_true]
        exact ⟨hrec.1, by omega⟩
      · simp only [hc, if_false]
        exact ⟨hrec.1, by omega⟩

theorem retryGo_first_truthy (m : Nat) (att : Nat → Except Unit (Option String)) :
    ∀ fuel i j, i ≤ j → j < i + fuel →
      (∀ k, i ≤ k → k < j → isTruthyOk (att k) = false) →
      isTruthyOk (att j) = true →
      (retryGo m att i fuel).result = okVal (att j) ∧
      (retryGo m att i fuel).calls = j - i + 1 := by
  intro fuel
  induction fuel with
  | zero => intro i j h1 h2; omega
  | succ n ih =>
    intro i j h1 h2 hbefore hj
    by_cases hij : i = j
    · subst hij
      cases hatt : att i with
      | ok sol =>
        have ht : truthy sol = true := by
          simpa [isTruthyOk, hatt] using hj
        simp only [retryGo, hatt, ht, if_true, okVal]
        exact ⟨trivial, by omega⟩
      | error e =>
        rw [hatt] at hj
        simp [isTruthyOk] at hj
    · have hij' : i < j := by omega
      have hi : isTruthyOk (att i) = false := hbefore i (Nat.le_refl i) hij'
      have hrec := ih (i + 1) j (by omega) (by omega)
        (fun k hk1 hk2 => hbefore k (by omega) hk2) hj
      cases hatt : att i with
      | ok sol =>
        have ht : truthy sol = false := by
          simpa [isTruthyOk, hatt] using hi
        simp only [retryGo, hatt, ht, Bool.false_eq_true, if_false]
        exact ⟨hrec.1, by omega⟩
      | error e =>
        simp only [retryGo, hatt]
        by_cases hc : i < m - 1
        · simp only [hc, if_true]
          exact ⟨hrec.1, by omega⟩
        · simp only [hc, if_false]
          exact ⟨hrec.1, by omega⟩

theorem retryGo_none_or_truthy (m : Nat) (att : Nat → Except Unit (Option String)) :
    ∀ fuel i, (retryGo m att i fuel).result = none ∨
      truthy (retryGo m att i fuel).result = true := by
  intro fuel
  induction fuel with
  | zero => intro i; left; simp [retryGo]
  | succ n ih =>
    intro i
    cases hatt : att i with
    | ok sol =>
      by_cases ht : truthy sol = true
      · right
        simp [retryGo, hatt, ht]
      · simp only [retryGo, hatt, ht, Bool.false_eq_true, if_false]
        exact ih (i + 1)
    | error e =>
      simp only [retryGo, hatt]
      by_cases hc : i < m - 1
      · simp only [hc, if_true]
        exact ih (i + 1)
      · simp only [hc, if_false]
        exact ih (i + 1)

theorem retryGo_all_error_delays (m : Nat) (att : Nat → Except Unit (Option String))
    (herr : ∀ k, att k = Except.error ()) :
    ∀ fuel i, i + fuel = m →
      (retryGo m att i fuel).delays = (List.range' i (fuel - 1)).map backoff := by
  intro fuel
  induction fuel with
  | zero => intro i _; simp [retryGo]
  | succ n ih =>
    intro i hm
    simp only [retryGo, herr i]
    by_cases hc : i < m - 1
    · have hn : 0 < n := by omega
      simp only [hc, if_true]
      rw [ih (i + 1) (by omega)]
      have : n + 1 - 1 = (n - 1) + 1 := by omega
      rw [this, List.range'_succ, List.map_cons]
    · have hn : n = 0 := by omega
      subst hn
      simp only [hc, if_false]
      simp [retryGo]

/-- The dispatch result is `null` or truthy (the retry loop only returns a
value early when it is truthy). -/
theorem dispatch_none_or_truthy (env : Env) (opts : SolverOptions) (c : CaptchaData) :
    (dispatch env opts c).result = none ∨ truthy (dispatch env opts c).result = true := by
  unfold dispatch solveWithRetry
  split
  · exact retryGo_none_or_truthy _ _ _ _
  · split
    · exact retryGo_none_or_truthy _ _ _ _
    · left; rfl

/-- Dispatch on an unrecognized service: no strategy call, no delay. -/
theorem dispatch_unknown (env : Env) (opts : SolverOptions) (c : CaptchaData)
    (h1 : c.captcha_service ≠ "hcaptcha") (h2 : c.captcha_service ≠ "recaptcha") :
    dispatch env opts c = ⟨none, 0, []⟩ := by
  unfold dispatch
  rw [if_neg h1, if_neg h2]

/-- `cleanup` never touches the stats record. -/
theorem cleanup_stats (s : SolverState) : (cleanup s).stats = s.stats := by
  unfold cleanup clearCache
  split <;> rfl

/-- A two-decimal percentage string is never the `N/A` sentinel (its last
character is `%`). -/
theorem pct2_ne_NA (n t : Nat) : pct2 n t ≠ "N/A" := by
  have h : ∀ x : String, x ++ "%" ≠ "N/A" := by
    intro x hx
    have hd := congrArg String.data hx
    rw [String.data_append] at hd
    have := congrArg List.getLast? hd
    simp at this
  unfold pct2
  exact h _

/-! ## Claims -/

/-- **C1** (counterexample): with caching enabled and a cache entry for
`(hcaptcha, sk1)` holding `sol-A`, a `solve` with a different request
token does return the cached solution, but the successful counter stays
at its old value `1` instead of being incremented: the claim's
"increments the cache-hit counter and the successful counter each
exactly once" is false on the code, which increments only the cache-hit
counter. -/
theorem solve_cache_hit_keeps_successful_cex :
    stCached.options.enableCaching = true ∧
    (cacheLookup stCached.cache (getCacheKey cdHit)).isSome = true ∧
    (solve envNull stCached (some cdHit)).result = some "sol-A" ∧
    (solve envNull stCached (some cdHit)).state.stats.cached = stCached.stats.cached + 1 ∧
    (solve envNull stCached (some cdHit)).state.stats.successful = stCached.stats.successful ∧
    (solve envNull stCached (some cdHit)).state.stats.successful ≠
      stCached.stats.successful + 1 := by
  refine ⟨rfl, rfl, rfl, rfl, rfl, ?_⟩
  decide

/-- **C1** (amended): for every `solve(request)` call where caching is
enabled and a cache entry exists for the key `(service, siteKey)`,
`solve` returns the cached solution immediately without invoking any
strategy and without initializing the engine, and increments the
cache-hit counter and the total counter each exactly once, leaving the
successful and failed counters unchanged (even when the requestToken
differs from the one that produced the cached solution). -/
theorem solve_cache_hit_spec (env : Env) (s : SolverState) (c : CaptchaData)
    (h : s.options.enableCaching = true)
    (h2 : (cacheLookup s.cache (getCacheKey c)).isSome = true) :
    (solve env s (some c)).result = cacheLookup s.cache (getCacheKey c) ∧
    (solve env s (some c)).trace.strategyCalls = 0 ∧
    (solve env s (some c)).trace.delays = [] ∧
    (solve env s (some c)).trace.initCalled = false ∧
    (solve env s (some c)).state.stats.cached = s.stats.cached + 1 ∧
    (solve env s (some c)).state.stats.total = s.stats.total + 1 ∧
    (solve env s (some c)).state.stats.successful = s.stats.successful ∧
    (solve env s (some c)).state.stats.failed = s.stats.failed ∧
    (∀ rq : String,
      solve env s (some ⟨c.captcha_service, c.captcha_sitekey, rq⟩) =
        solve env s (some c)) := by
  have hb : (s.options.enableCaching && (cacheLookup s.cache (getCacheKey c)).isSome) = true := by
    rw [h, h2]
    rfl
  have e := solve_hit env s c hb
  refine ⟨by rw [e], by rw [e], by rw [e], by rw [e], by rw [e], by rw [e], by rw [e],
    by rw [e], ?_⟩
  intro rq
  exact (solve_hit env s ⟨c.captcha_service, c.captcha_sitekey, rq⟩ hb).trans e.symm

/-- **C1** (witness): the amended cache-hit contract evaluated on the
concrete cached state. -/
theorem solve_cache_hit_spec_witness :
    (solve envNull stCached (some cdHit)).result = some "sol-A" ∧
    (solve envNull stCached (some cdHit)).trace.strategyCalls = 0 ∧
    (solve envNull stCached (some cdHit)).state.stats.cached = 1 := by
  have h := solve_cache_hit_spec envNull stCached cdHit rfl rfl
  exact ⟨h.1.trans rfl, h.2.1, h.2.2.2.2.1.trans rfl⟩

/-- **C2**: every `solve` call — cache hit, success, failure, unknown
service or internal exception — increments the total counter exactly
once. -/
theorem solve_total_increment (env : Env) (s : SolverState) (cd : Option CaptchaData) :
    (solve env s cd).state.stats.total = s.stats.total + 1 := by
  cases cd with
  | none => rfl
  | some c =>
    cases hb : (s.options.enableCaching && (cacheLookup s.cache (getCacheKey c)).isSome) with
    | true => rw [solve_hit env s c hb]
    | false =>
      have hst := solve_miss_stats env s c hb
      rw [hst]
      split <;> rfl

/-- **C3**: `solve` never raises: for every behaviour of the strategy and
engine collaborators (including thrown exceptions and timeouts) it is a
total function returning either a solution string or `null`; every
`null`-returning call increments the failed counter exactly once (and
leaves successful alone), and in particular an exception escaping the
`try` body — e.g. `solve(undefined)` — yields `null` with the failed
counter incremented. -/
theorem solve_never_raises (env : Env) (s : SolverState) (cd : Option CaptchaData) :
    ((∃ str, (solve env s cd).result = some str) ∨
      ((solve env s cd).result = none ∧
        (solve env s cd).state.stats.failed = s.stats.failed + 1 ∧
        (solve env s cd).state.stats.successful = s.stats.successful)) ∧
    (solve env s none).result = none ∧
    (solve env s none).state.stats.failed = s.stats.failed + 1 := by
  refine ⟨?_, rfl, rfl⟩
  cases cd with
  | none => exact Or.inr ⟨rfl, rfl, rfl⟩
  | some c =>
    cases hb : (s.options.enableCaching && (cacheLookup s.cache (getCacheKey c)).isSome) with
    | true =>
      left
      have h2 : (cacheLookup s.cache (getCacheKey c)).isSome = true := by
        cases hec : s.options.enableCaching <;> rw [hec] at hb <;> simp_all
      rw [solve_hit env s c hb]
      cases hx : cacheLookup s.cache (getCacheKey c) with
      | some v => exact ⟨v, rfl⟩
      | none => rw [hx] at h2; cases h2
    | false =>
      have hres := solve_miss_result env s c hb
      have hst := solve_miss_stats env s c hb
      cases dispatch_none_or_truthy env s.options c with
      | inl hn =>
        right
        rw [hn] at hres
        rw [hn] at hst
        simp only [truthy, Bool.false_eq_true, if_false] at hst
        exact ⟨hres, by rw [hst], by rw [hst]⟩
      | inr ht =>
        left
        cases hr : (dispatch env s.options c).result with
        | some v => exact ⟨v, by rw [hres, hr]⟩
        | none => rw [hr] at ht; cases ht

/-- **C4** (counterexample): a strategy attempt that resolves with the
empty string is a non-null result, yet `solveWithRetry` does not return
it: with `maxRetries = 3` and every attempt resolving `""`, all three
attempts are consumed and the final result is `null`, so the claim's
"on the first attempt that yields a non-null result it returns that
result immediately" is false on the code (which tests JS truthiness,
not non-nullness). -/
theorem solveWithRetry_empty_string_cex :
    attemptsEmpty 0 = Except.ok (some "") ∧
    (solveWithRetry (optsN 3) attemptsEmpty).result = none ∧
    (solveWithRetry (optsN 3) attemptsEmpty).calls = 3 := by
  exact ⟨rfl, by decide, by decide⟩

/-- **C4** (amended): `solveWithRetry` invokes the strategy at most
`maxRetries` times; on the first attempt that yields a truthy result
(non-null and non-empty), it returns that result immediately with no
further attempts; when no attempt yields a truthy result it returns
`null` after exactly `maxRetries` attempts and does not propagate the
last error. -/
theorem solveWithRetry_contract (opts : SolverOptions)
    (attempts : Nat → Except Unit (Option String)) :
    (solveWithRetry opts attempts).calls ≤ opts.maxRetries ∧
    (∀ j, j < opts.maxRetries → isTruthyOk (attempts j) = true →
      (∀ k, k < j → isTruthyOk (attempts k) = false) →
      (solveWithRetry opts attempts).result = okVal (attempts j) ∧
      (solveWithRetry opts attempts).calls = j + 1) ∧
    ((∀ k, k < opts.maxRetries → isTruthyOk (attempts k) = false) →
      (solveWithRetry opts attempts).result = none ∧
      (solveWithRetry opts attempts).calls = opts.maxRetries) := by
  unfold solveWithRetry
  refine ⟨retryGo_calls_le _ _ _ _, ?_, ?_⟩
  · intro j hj htr hbef
    have h := retryGo_first_truthy opts.maxRetries attempts opts.maxRetries 0 j
      (Nat.zero_le j) (by omega) (fun k _ hk2 => hbef k hk2) htr
    refine ⟨h.1, ?_⟩
    rw [h.2]
    omega
  · intro hall
    exact retryGo_all_falsy opts.maxRetries attempts opts.maxRetries 0
      (fun k _ hk2 => hall k (by omega))

/-- **C4** (witness): the amended retry contract evaluated with a first
attempt that rejects and a second that resolves `tok`. -/
theorem solveWithRetry_contract_witness :
    (solveWithRetry (optsN 3) attemptsSecond).result = some "tok" ∧
    (solveWithRetry (optsN 3) attemptsSecond).calls = 2 := by
  have h := (solveWithRetry_contract (optsN 3) attemptsSecond).2.1 1 (by decide)
    (by decide) (fun k hk => by
      have hk0 : k = 0 := by omega
      rw [hk0]
      decide)
  exact ⟨h.1.trans (by decide), h.2⟩

/-- **C5**: for an always-failing strategy the delays awaited between
attempts are exactly `min(1000 * 2^i, 10000)` for the zero-based indices
`0 .. maxRetries - 2`; concretely the sequence starts
`1000, 2000, 4000, 8000, 10000, 10000` and with `maxRetries = 4` exactly
`4` attempts occur (delays `1000, 2000, 4000`) before giving up with
`null`. -/
theorem solveWithRetry_backoff_sequence (opts : SolverOptions)
    (attempts : Nat → Except Unit (Option String))
    (h : ∀ k, attempts k = Except.error ()) :
    (solveWithRetry opts attempts).delays =
      (List.range (opts.maxRetries - 1)).map (fun i => min (1000 * 2 ^ i) 10000) ∧
    (solveWithRetry opts attempts).calls = opts.maxRetries ∧
    (solveWithRetry opts attempts).result = none ∧
    (solveWithRetry (optsN 7) allFail).delays = [1000, 2000, 4000, 8000, 10000, 10000] ∧
    (solveWithRetry (optsN 4) allFail).calls = 4 ∧
    (solveWithRetry (optsN 4) allFail).delays = [1000, 2000, 4000] ∧
    (solveWithRetry (optsN 4) allFail).result = none := by
  have hfalsy : ∀ k, isTruthyOk (attempts k) = false := by
    intro k
    rw [h k]
    rfl
  have hexh := retryGo_all_falsy opts.maxRetries attempts opts.maxRetries 0
    (fun k _ _ => hfalsy k)
  refine ⟨?_, hexh.2, hexh.1, by decide, by decide, by decide, by decide⟩
  have hd := retryGo_all_error_delays opts.maxRetries attempts h opts.maxRetries 0
    (by omega)
  unfold solveWithRetry
  rw [hd, List.range_eq_range']
  rfl

/-- **C5** (witness): the backoff contract evaluated at `maxRetries = 4`
with an always-rejecting strategy. -/
theorem solveWithRetry_backoff_sequence_witness :
    (solveWithRetry (optsN 4) allFail).delays = [1000, 2000, 4000] := by
  have h := (solveWithRetry_backoff_sequence (optsN 4) allFail (fun _ => rfl)).1
  rw [h]
  decide

/-- **C6** (counterexample): the cache check precedes the service
dispatch and the cache key is the plain concatenation
`service + ":" + siteKey`, so a call whose service is neither `hcaptcha`
nor `recaptcha` can still hit a cache entry: after a successful solve
for `(hcaptcha, x:y)` stored under key `hcaptcha:x:y`, a call with
service `hcaptcha:x` and site key `y` computes the same key and returns
the cached `tok` with the failed counter unchanged — not `null` with
failed incremented by 1, as the claim states. -/
theorem solve_unknown_service_cex :
    cdCollide.captcha_service ≠ "hcaptcha" ∧
    cdCollide.captcha_service ≠ "recaptcha" ∧
    (solve envNull stCollide (some cdCollide)).result = some "tok" ∧
    (solve envNull stCollide (some cdCollide)).result ≠ none ∧
    (solve envNull stCollide (some cdCollide)).state.stats.failed = stCollide.stats.failed := by
  exact ⟨by decide, by decide, rfl, by decide, rfl⟩

/-- **C6** (amended): for every `solve` call whose service is neither
`hcaptcha` nor `recaptcha` and that does not hit the cache (caching
disabled or no entry under the computed key), `solve` returns `null`
without invoking any strategy and without any retry or backoff delay,
and increments the total counter and the failed counter each by exactly
1, leaving successful and cached unchanged. -/
theorem solve_unknown_service_spec (env : Env) (s : SolverState) (c : CaptchaData)
    (h1 : c.captcha_service ≠ "hcaptcha")
    (h2 : c.captcha_service ≠ "recaptcha")
    (h3 : (s.options.enableCaching && (cacheLookup s.cache (getCacheKey c)).isSome) = false) :
    (solve env s (some c)).result = none ∧
    (solve env s (some c)).trace.strategyCalls = 0 ∧
    (solve env s (some c)).trace.delays = [] ∧
    (solve env s (some c)).state.stats.total = s.stats.total + 1 ∧
    (solve env s (some c)).state.stats.failed = s.stats.failed + 1 ∧
    (solve env s (some c)).state.stats.successful = s.stats.successful ∧
    (solve env s (some c)).state.stats.cached = s.stats.cached := by
  have hd := dispatch_unknown env s.options c h1 h2
  have hres := solve_miss_result env s c h3
  have htr := solve_miss_trace env s c h3
  have hst := solve_miss_stats env s c h3
  rw [hd] at hres htr hst
  simp only [truthy, Bool.false_eq_true, if_false] at hst
  exact ⟨hres, by rw [htr], by rw [htr], by rw [hst], by rw [hst], by rw [hst], by rw [hst]⟩

/-- **C6** (witness): the amended unknown-service contract evaluated on a
freshly constructed solver and the service string `unknown`. -/
theorem solve_unknown_service_spec_witness :
    (solve envNull (mkSolver (optsN 3)) (some cdUnknown)).result = none ∧
    (solve envNull (mkSolver (optsN 3)) (some cdUnknown)).state.stats.failed = 1 := by
  have h := solve_unknown_service_spec envNull (mkSolver (optsN 3)) cdUnknown
    (by decide) (by decide) rfl
  exact ⟨h.1, h.2.2.2.2.1.trans rfl⟩

/-- **C7**: `getStats` reports the four raw counters, uses the `N/A`
sentinel for both rates exactly when the total counter is `0`, and
otherwise reports `(successful/total)*100` and `(cached/total)*100`
formatted to two decimals with a `%` suffix (`pct2`); concretely, with
`total = 2, successful = 1, cached = 1` both rates read `50.00%`. -/
theorem getStats_spec (s : SolverState) :
    (getStats s).total = s.stats.total ∧
    (getStats s).successful = s.stats.successful ∧
    (getStats s).failed = s.stats.failed ∧
    (getStats s).cached = s.stats.cached ∧
    ((getStats s).successRate = "N/A" ↔ s.stats.total = 0) ∧
    ((getStats s).cacheHitRate = "N/A" ↔ s.stats.total = 0) ∧
    (s.stats.total ≠ 0 →
      (getStats s).successRate = pct2 s.stats.successful s.stats.total ∧
      (getStats s).cacheHitRate = pct2 s.stats.cached s.stats.total) ∧
    (getStats stMixed).successRate = "50.00%" ∧
    (getStats stMixed).cacheHitRate = "50.00%" := by
  have hsr : ∀ n : Nat, 0 < s.stats.total →
      (if s.stats.total > 0 then pct2 n s.stats.total else "N/A") = pct2 n s.stats.total := by
    intro n hpos
    rw [if_pos hpos]
  refine ⟨rfl, rfl, rfl, rfl, ?_, ?_, ?_, by decide, by decide⟩
  · constructor
    · intro hna
      by_contra h0
      have hpos := Nat.pos_of_ne_zero h0
      have he : (getStats s).successRate = pct2 s.stats.successful s.stats.total :=
        hsr _ hpos
      rw [he] at hna
      exact pct2_ne_NA _ _ hna
    · intro h0
      show (if s.stats.total > 0 then _ else _) = _
      rw [if_neg (by omega)]
  · constructor
    · intro hna
      by_contra h0
      have hpos := Nat.pos_of_ne_zero h0
      have he : (getStats s).cacheHitRate = pct2 s.stats.cached s.stats.total :=
        hsr _ hpos
      rw [he] at hna
      exact pct2_ne_NA _ _ hna
    · intro h0
      show (if s.stats.total > 0 then _ else _) = _
      rw [if_neg (by omega)]
  · intro h0
    have hpos := Nat.pos_of_ne_zero h0
    exact ⟨hsr _ hpos, hsr _ hpos⟩

/-- **C7** (witness): the rate contract evaluated on the mixed state with
`total = 2`. -/
theorem getStats_spec_witness :
    (getStats stMixed).successRate = pct2 1 2 := by
  exact ((getStats_spec stMixed).2.2.2.2.2.2.1 (by decide)).1

/-- **C8**: `clearCache` empties the cache mapping and leaves the stats
counters (and the engine fields) unchanged; `resetStats` zeroes all four
counters and leaves the cache mapping (and the engine fields) unchanged:
the two subsystems are independent under these operations. -/
theorem clearCache_resetStats_independent (s : SolverState) :
    (clearCache s).cache = [] ∧
    (clearCache s).stats = s.stats ∧
    (clearCache s).worker = s.worker ∧
    (clearCache s).initialized = s.initialized ∧
    (clearCache s).options = s.options ∧
    (resetStats s).stats = Stats.mk 0 0 0 0 ∧
    (resetStats s).cache = s.cache ∧
    (resetStats s).worker = s.worker ∧
    (resetStats s).initialized = s.initialized ∧
    (resetStats s).options = s.options :=
  ⟨rfl, rfl, rfl, rfl, rfl, rfl, rfl, rfl, rfl, rfl⟩

/-- **C9**: on every state reachable by the class (where the
`initialized` flag implies a present worker handle), `cleanup` drops the
engine handle, resets the `initialized` flag, clears the cache, leaves
the stats counters unchanged, and afterwards a successful engine
initialization (as performed by a later `solve`) is possible again. -/
theorem cleanup_spec (env : Env) (s : SolverState)
    (h : s.initialized = true → s.worker = true) :
    (cleanup s).worker = false ∧
    (cleanup s).initialized = false ∧
    (cleanup s).cache = [] ∧
    (cleanup s).stats = s.stats ∧
    (env.initOk = true →
      (initEngine env (cleanup s)).initialized = true ∧
      (initEngine env (cleanup s)).worker = true) := by
  have e : cleanup s = { s with worker := false, initialized := false, cache := [] } := by
    unfold cleanup clearCache
    cases hw : s.worker with
    | true => simp
    | false =>
      have hi : s.initialized = false := by
        cases hini : s.initialized
        · rfl
        · have hwt := h hini
          rw [hw] at hwt
          cases hwt
      simp [hw, hi]
  refine ⟨by rw [e], by rw [e], by rw [e], by rw [e], ?_⟩
  intro hio
  rw [e]
  unfold initEngine
  simp [hio]

/-- **C9** (witness): the cleanup contract evaluated on the cached state
whose worker handle is present. -/
theorem cleanup_spec_witness :
    (cleanup stCached).initialized = false ∧ (cleanup stCached).stats = stCached.stats := by
  have h := cleanup_spec envNull stCached (fun _ => rfl)
  exact ⟨h.2.1, h.2.2.2.1⟩

/-- **C10**: after construction and after every completed public
operation the counters satisfy `total = successful + failed + cached`
(each operation preserves `balanced`); a cache-hit solve increments
total and cached but leaves successful and failed unchanged, and every
non-cache-hit solve increments exactly one of successful or failed and
leaves cached unchanged. -/
theorem stats_balanced_invariant :
    (∀ opts, balanced (mkSolver opts).stats) ∧
    (∀ env s cd, balanced s.stats → balanced (solve env s cd).state.stats) ∧
    (∀ s, balanced s.stats → balanced (clearCache s).stats) ∧
    (∀ s, balanced (resetStats s).stats) ∧
    (∀ s, balanced s.stats → balanced (cleanup s).stats) ∧
    (∀ env s c, cacheHit s (some c) = true →
      (solve env s (some c)).state.stats.cached = s.stats.cached + 1 ∧
      (solve env s (some c)).state.stats.successful = s.stats.successful ∧
      (solve env s (some c)).state.stats.failed = s.stats.failed) ∧
    (∀ env s cd, cacheHit s cd = false →
      (solve env s cd).state.stats.cached = s.stats.cached ∧
      (((solve env s cd).state.stats.successful = s.stats.successful + 1 ∧
        (solve env s cd).state.stats.failed = s.stats.failed) ∨
       ((solve env s cd).state.stats.successful = s.stats.successful ∧
        (solve env s cd).state.stats.failed = s.stats.failed + 1))) := by
  have hsolve : ∀ env s cd, balanced s.stats → balanced (solve env s cd).state.stats := by
    intro env s cd hbal
    unfold balanced at hbal ⊢
    cases cd with
    | none =>
      show s.stats.total + 1 = s.stats.successful + (s.stats.failed + 1) + s.stats.cached
      omega
    | some c =>
      cases hb : (s.options.enableCaching && (cacheLookup s.cache (getCacheKey c)).isSome) with
      | true =>
        rw [solve_hit env s c hb]
        simp only []
        omega
      | false =>
        rw [solve_miss_stats env s c hb]
        split <;> simp only [] <;> omega
  refine ⟨fun opts => rfl, hsolve, fun s h => h, fun s => rfl,
    fun s h => by rw [cleanup_stats]; exact h, ?_, ?_⟩
  · intro env s c hhit
    have hb : (s.options.enableCaching && (cacheLookup s.cache (getCacheKey c)).isSome) = true :=
      hhit
    rw [solve_hit env s c hb]
    exact ⟨rfl, rfl, rfl⟩
  · intro env s cd hmiss
    cases cd with
    | none => exact ⟨rfl, Or.inr ⟨rfl, rfl⟩⟩
    | some c =>
      have hb : (s.options.enableCaching && (cacheLookup s.cache (getCacheKey c)).isSome) = false :=
        hmiss
      have hst := solve_miss_stats env s c hb
      cases htr : truthy (dispatch env s.options c).result with
      | true =>
        rw [if_pos htr] at hst
        exact ⟨by rw [hst], Or.inl ⟨by rw [hst], by rw [hst]⟩⟩
      | false =>
        rw [if_neg (by simp [htr])] at hst
        exact ⟨by rw [hst], Or.inr ⟨by rw [hst], by rw [hst]⟩⟩

/-- **C10** (witness): the invariant evaluated through one concrete
cache-hit solve from a balanced state. -/
theorem stats_balanced_invariant_witness :
    balanced (solve envNull (mkSolver (optsN 3)) (some cdUnknown)).state.stats := by
  exact stats_balanced_invariant.2.1 envNull (mkSolver (optsN 3)) (some cdUnknown) rfl

/-- `solve` either leaves the engine fields unchanged or sets both the
worker handle and the `initialized` flag together (lazy initialization). -/
theorem solve_engine_fields (env : Env) (s : SolverState) (cd : Option CaptchaData) :
    ((solve env s cd).state.worker = s.worker ∧
      (solve env s cd).state.initialized = s.initialized) ∨
    ((solve env s cd).state.worker = true ∧
      (solve env s cd).state.initialized = true) := by
  cases cd with
  | none => exact Or.inl ⟨rfl, rfl⟩
  | some c =>
    cases hb : (s.options.enableCaching && (cacheLookup s.cache (getCacheKey c)).isSome) with
    | true =>
      rw [solve_hit env s c hb]
      exact Or.inl ⟨rfl, rfl⟩
    | false =>
      have hs : (solve env s (some c)).state.worker =
            (initEngine env { s with stats := { s.stats with total := s.stats.total + 1 } }).worker ∧
          (solve env s (some c)).state.initialized =
            (initEngine env { s with stats := { s.stats with total := s.stats.total + 1 } }).initialized := by
        simp only [solve, solveBody, hb, Bool.false_eq_true, if_false]
        constructor <;> (split <;> split <;> rfl)
      rw [hs.1, hs.2]
      unfold initEngine
      by_cases hi : ({ s with stats := { s.stats with total := s.stats.total + 1 } } : SolverState).initialized = true
      · rw [if_pos hi]
        exact Or.inl ⟨rfl, rfl⟩
      · rw [if_neg hi]
        by_cases ho : env.initOk = true
        · rw [if_pos ho]
          exact Or.inr ⟨rfl, rfl⟩
        · rw [if_neg ho]
          exact Or.inl ⟨rfl, rfl⟩

/-- The reachable-state invariant `initialized → worker present` (true at
construction, since both are off) is preserved by `solve`; `clearCache`
and `resetStats` do not touch either field, and `cleanup` under the
invariant turns both off, so every reachable state satisfies it. -/
theorem solve_preserves_engineInv (env : Env) (s : SolverState) (cd : Option CaptchaData)
    (h : s.initialized = true → s.worker = true) :
    (solve env s cd).state.initialized = true → (solve env s cd).state.worker = true := by
  rcases solve_engine_fields env s cd with ⟨hw, hi⟩ | ⟨hw, hi⟩
  · intro hini
    rw [hi] at hini
    rw [hw]
    exact h hini
  · intro _
    exact hw
